import Mathlib

/-!
Verification of the order-composition and checkout pipeline of the
CharmanderPOS self-service ordering app (Vue frontend).

The embedding below translates the relevant component logic into Lean:
* `Plate`     — Plate.vue: side/entree selection, arity rules, pricing.
* `ALaCarte`  — ALaCarte.vue: per-item size selection, premium price table,
                the selected-item lists updated by `selectSize`.
* `Appetizer` — Appetizers.vue: multi-select batch add to cart.
* `App`       — App.vue: the cart / transaction-cart parallel lists and the
                `completeOrder` checkout sequence.

Currency values (JS numbers) are modelled as rationals; ids as integers.
-/

namespace PandaPOS

/-- The fixed 5-slot tuple `[baseItemID, food1, food2, food3, food4]` built by
every menu component and pushed to the transaction cart (unused slots are 0). -/
structure TransactionEntry where
  itemID : Int
  food1 : Int
  food2 : Int
  food3 : Int
  food4 : Int
deriving DecidableEq, Repr

/-- A cart display line as emitted to App.vue (`name`, `price`,
`transactionEntry`; Plate.vue additionally attaches `isPremium`, which is
absent — hence falsy, modelled `false` — on appetizer items). -/
structure CartItem where
  name : String
  price : ℚ
  isPremium : Bool
  transactionEntry : TransactionEntry
deriving DecidableEq, Repr

/-- JS `hay.includes(needle)`: substring containment on strings. -/
def strIncludes (hay needle : String) : Bool :=
  decide (needle.data <:+: hay.data)

namespace Plate

/-- Plate.vue selection state: `selectedSide` (single, nullable) and
`selectedEntrees` (array). -/
structure PlateState where
  selectedSide : Option String
  selectedEntrees : List String
deriving DecidableEq, Repr

/-- Plate.vue `selectSide`: select one side, clicking the selected side
deselects it. -/
def selectSide (s : PlateState) (side : String) : PlateState :=
  { s with selectedSide := if s.selectedSide = some side then none else some side }

/-- Plate.vue `selectEntree`: clicking a selected entree removes it; otherwise
it is appended only while fewer than two entrees are selected. -/
def selectEntree (s : PlateState) (entree : String) : PlateState :=
  if s.selectedEntrees.contains entree then
    { s with selectedEntrees := s.selectedEntrees.filter (fun item => item != entree) }
  else if s.selectedEntrees.length < 2 then
    { s with selectedEntrees := s.selectedEntrees ++ [entree] }
  else
    s

/-- Plate.vue `canAddToCart`: one side selected and exactly two entrees. -/
def canAddToCart (s : PlateState) : Bool :=
  s.selectedSide.isSome && s.selectedEntrees.length == 2

/-- Plate.vue `isPremium`: membership of the entree name in the fetched
`premiumEntrees` list. -/
def isPremium (premiumEntrees : List String) (entree : String) : Bool :=
  premiumEntrees.contains entree

/-- The `premiumCount` accumulation in Plate.vue `addToCart`
(`forEach` over `selectedEntrees`, incrementing a counter). -/
def premiumCount (premiumEntrees : List String) (selected : List String) : Nat :=
  selected.foldl (fun count entree => if isPremium premiumEntrees entree then count + 1 else count) 0

/-- Plate.vue `addToCart`: guarded by `canAddToCart`; price is the fetched
Plate base price plus `1.50` per premium selected entree; the transaction
entry is `[baseItemID, sideFoodID, entreeFoodID1, entreeFoodID2, 0]`. -/
def addToCart (basePrice : ℚ) (premiumEntrees : List String) (baseItemID : Int)
    (foodID : String → Int) (s : PlateState) : Option CartItem :=
  if canAddToCart s then
    match s.selectedSide, s.selectedEntrees with
    | some side, [e1, e2] =>
      let count := premiumCount premiumEntrees s.selectedEntrees
      some { name := "Plate (" ++ side ++ " + " ++ e1 ++ ", " ++ e2 ++ ")"
             price := basePrice + (count : ℚ) * (3/2)
             isPremium := decide (0 < count)
             transactionEntry := ⟨baseItemID, foodID side, foodID e1, foodID e2, 0⟩ }
    | _, _ => none
  else none

end Plate

namespace ALaCarte

/-- The two selectable categories in ALaCarte.vue (the `type` argument of
`toggleSides` / `toggleEntrees` / `selectSize`). -/
inductive ItemType where
  | side
  | entree
deriving DecidableEq, Repr

/-- The size labels occurring in ALaCarte.vue `sizeOptions`
(sides: Medium/Large; entrees: Small/Medium/Large). -/
inductive SizeName where
  | Small
  | Medium
  | Large
deriving DecidableEq, Repr

/-- Display string of a size label, as used in entry names. -/
def SizeName.str : SizeName → String
  | .Small => "Small"
  | .Medium => "Medium"
  | .Large => "Large"

/-- One element of `sizeOptions.side` / `sizeOptions.entree` after the fetches
filled in `price` and `baseItemID`. -/
structure SizeOption where
  name : SizeName
  price : ℚ
  baseItemID : Int
deriving DecidableEq, Repr

/-- ALaCarte.vue `premiumPrices`: the premium per-size price table. -/
def premiumPrices : SizeName → ℚ
  | .Small => 67/10
  | .Medium => 23/2
  | .Large => 157/10

/-- An element of `selectedSides` / `selectedEntrees` as built by `selectSize`. -/
structure SelectedItem where
  name : String
  price : ℚ
  size : SizeName
  isPremium : Bool
  transactionEntry : TransactionEntry
deriving DecidableEq, Repr

/-- ALaCarte.vue component state (the parts `toggleSides` / `toggleEntrees` /
`selectSize` / `addToCart` read and write). Menu items are identified by their
normalized names (`getSideName` / `getEntreeName`). -/
structure AlaState where
  selectedSides : List SelectedItem
  selectedEntrees : List SelectedItem
  showSizeModal : Bool
  currentItem : Option String
  currentItemType : Option ItemType
deriving DecidableEq, Repr

/-- ALaCarte.vue `canAddToCart`. -/
def canAddToCart (s : AlaState) : Bool :=
  s.selectedSides.length > 0 || s.selectedEntrees.length > 0

/-- ALaCarte.vue `toggleSides`: records the clicked side as `currentItem` and
opens the size modal. It does not touch `selectedSides`. -/
def toggleSides (s : AlaState) (side : String) : AlaState :=
  { s with currentItem := some side, currentItemType := some .side, showSizeModal := true }

/-- ALaCarte.vue `toggleEntrees`: records the clicked entree as `currentItem`
and opens the size modal. It does not touch `selectedEntrees`. -/
def toggleEntrees (s : AlaState) (entree : String) : AlaState :=
  { s with currentItem := some entree, currentItemType := some .entree, showSizeModal := true }

/-- ALaCarte.vue `isSelected`: some entry of the relevant list has a stored
name containing the item's name as a substring (JS `String.includes`). -/
def isSelected (s : AlaState) (t : ItemType) (itemName : String) : Bool :=
  (match t with
   | .side => s.selectedSides
   | .entree => s.selectedEntrees).any (fun selected => strIncludes selected.name itemName)

/-- The display name `selectSize` stores:
`"Side: <name> (<size>)"` or `"Entree: <name> (<size>)"`. -/
def displayName (t : ItemType) (itemName : String) (size : SizeName) : String :=
  (match t with | .side => "Side" | .entree => "Entree")
    ++ ": " ++ itemName ++ " (" ++ size.str ++ ")"

/-- The unit price `selectSize` assigns: the size option's fetched price,
overridden by the `premiumPrices` table for premium entrees. -/
def selectSizePrice (t : ItemType) (isPrem : Bool) (size : SizeOption) : ℚ :=
  match t, isPrem with
  | .entree, true => premiumPrices size.name
  | _, _ => size.price

/-- The item object `selectSize` constructs. -/
def mkSelectedItem (t : ItemType) (itemName : String) (size : SizeOption)
    (isPrem : Bool) (foodID : Int) : SelectedItem :=
  { name := displayName t itemName size.name
    price := selectSizePrice t isPrem size
    size := size.name
    isPremium := isPrem
    transactionEntry := ⟨size.baseItemID, foodID, 0, 0, 0⟩ }

/-- The list update performed by `selectSize`: `findIndex` of the first entry
whose stored name contains the item's name as a substring, then in-place
assignment at that index, else `push`. -/
def updateOrAppend (l : List SelectedItem) (itemName : String) (newItem : SelectedItem) :
    List SelectedItem :=
  match l with
  | [] => [newItem]
  | x :: xs =>
    if strIncludes x.name itemName then newItem :: xs
    else x :: updateOrAppend xs itemName newItem

/-- ALaCarte.vue `selectSize`: prices the current item for the chosen size,
builds its transaction entry, and updates the selected list (replace the first
`includes` match in place, else append); then closes the modal. -/
def selectSize (s : AlaState) (size : SizeOption) (t : ItemType)
    (premiumEntrees : List String) (foodID : String → Int) : AlaState :=
  match s.currentItem with
  | none => s
  | some itemName =>
    let isPrem := premiumEntrees.contains itemName
    let newItem := mkSelectedItem t itemName size isPrem (foodID itemName)
    let s' :=
      match t with
      | .side => { s with selectedSides := updateOrAppend s.selectedSides itemName newItem }
      | .entree => { s with selectedEntrees := updateOrAppend s.selectedEntrees itemName newItem }
    { s' with showSizeModal := false, currentItem := none, currentItemType := none }

end ALaCarte

namespace App

/-- App.vue cart state: the cart display list and the parallel
transaction-entry list. -/
structure AppState where
  cartItems : List CartItem
  transactionCart : List TransactionEntry
deriving DecidableEq, Repr

/-- The argument of App.vue `addToCart`: a single item or an array of items
(`Array.isArray` branch). -/
inductive CartPayload where
  | one (item : CartItem)
  | many (items : List CartItem)
deriving DecidableEq, Repr

/-- App.vue `addToCart`: push the item, or spread-push the array. -/
def addToCart (s : AppState) (payload : CartPayload) : AppState :=
  match payload with
  | .one item => { s with cartItems := s.cartItems ++ [item] }
  | .many items => { s with cartItems := s.cartItems ++ items }

/-- App.vue `addToTransactionCart`: push one entry. -/
def addToTransactionCart (s : AppState) (entry : TransactionEntry) : AppState :=
  { s with transactionCart := s.transactionCart ++ [entry] }

/-- App.vue `removeFromCart`: `splice(index, 1)` on both parallel lists. -/
def removeFromCart (s : AppState) (index : Nat) : AppState :=
  { cartItems := s.cartItems.eraseIdx index
    transactionCart := s.transactionCart.eraseIdx index }

/-- App.vue `clearOrder` (also `clearCart`): reset both lists. -/
def clearOrder (_s : AppState) : AppState :=
  { cartItems := [], transactionCart := [] }

/-- The persisted transaction header (`transactionPayload` in `completeOrder`).
The ISO date string is abstracted to a numeric timestamp. -/
structure TransactionRecord where
  transactionID : Int
  employeeID : Int
  total : ℚ
  date : Nat
  paymentMethod : String
deriving DecidableEq, Repr

/-- The external service calls `completeOrder` issues, in order. -/
inductive ServiceCall where
  | createTransaction (record : TransactionRecord)
  | createTransactionLineItem (transactionID itemID food1 food2 food3 food4 : Int)
  | decrementByItemType (itemID : Int)
  | decrementByFood (foodID : Int)
deriving DecidableEq, Repr

/-- The `foodids` array built per line in `completeOrder`: the four food slots
of the entry, each pushed only when nonzero. -/
def nonzeroFoodIDs (e : TransactionEntry) : List Int :=
  (if e.food1 ≠ 0 then [e.food1] else [])
    ++ (if e.food2 ≠ 0 then [e.food2] else [])
    ++ (if e.food3 ≠ 0 then [e.food3] else [])
    ++ (if e.food4 ≠ 0 then [e.food4] else [])

/-- The calls `completeOrder` issues for one transaction-cart line: one
item-type inventory decrement, the `transactionitems` insert, then one
`inventory/subtract` call per entry of `foodids`. -/
def lineCalls (transactionId : Int) (e : TransactionEntry) : List ServiceCall :=
  [.decrementByItemType e.itemID,
   .createTransactionLineItem transactionId e.itemID e.food1 e.food2 e.food3 e.food4]
    ++ (nonzeroFoodIDs e).map .decrementByFood

/-- JS truthiness test `!this.selectedPayment` (null or empty string). -/
def paymentNotSelected (p : Option String) : Bool :=
  match p with
  | none => true
  | some str => str.isEmpty

/-- Result of one `completeOrder` run: the (possibly unchanged) cart state,
the service calls issued after the latest-id read, and the persisted header or
the thrown error message. -/
structure CheckoutOutcome where
  state : AppState
  calls : List ServiceCall
  result : Except String TransactionRecord
deriving Repr

/-- App.vue `completeOrder`: read the latest transaction id and use it as
`this.transactionId` verbatim (the `// Increment to get a new ID` comment
notwithstanding, no increment is applied); throw before any write when no
payment method is selected; otherwise post the transaction header and, per
transaction-cart line, the line item plus its inventory decrements.
`latestID` is the value returned by the `transactions/latestID` service. -/
def completeOrder (s : AppState) (latestID : Int) (selectedPayment : Option String)
    (employeeID : Int) (cartTotal : ℚ) (date : Nat) : CheckoutOutcome :=
  let transactionId := latestID
  if paymentNotSelected selectedPayment then
    { state := s, calls := [], result := .error "Payment method is not selected." }
  else
    let record : TransactionRecord :=
      { transactionID := transactionId
        employeeID := employeeID
        total := cartTotal
        date := date
        paymentMethod := (selectedPayment.getD "") }
    { state := s
      calls := .createTransaction record :: (s.transactionCart.map (lineCalls transactionId)).flatten
      result := .ok record }

/-- App.vue `calculateReadyTime`: the random minute offset
`Math.floor(Math.random() * 6) + 5`, where `r` models the `Math.random()`
draw from `[0, 1)`. -/
def readyMinutesOffset (r : ℚ) : ℤ :=
  ⌊r * 6⌋ + 5

/-- App.vue `calculateReadyTime`: the ready time is the current time (in
minutes) advanced by the random offset. -/
def calculateReadyTime (nowMinutes : ℤ) (r : ℚ) : ℤ :=
  nowMinutes + readyMinutesOffset r

end App

namespace Appetizer

/-- Appetizers.vue `toggleAppetizer`: remove the clicked appetizer if selected
(`indexOf` + `splice`), else push it. -/
def toggleAppetizer (selected : List String) (appetizer : String) : List String :=
  if selected.contains appetizer then selected.erase appetizer
  else selected ++ [appetizer]

/-- Appetizers.vue `canAddToCart`: at least one appetizer selected. -/
def canAddToCart (selected : List String) : Bool :=
  selected.length > 0

/-- The transaction entry built per selected appetizer:
`[baseItemID, appetizerFoodID, 0, 0, 0]`. -/
def mkEntry (baseItemID : Int) (foodID : Int) : TransactionEntry :=
  ⟨baseItemID, foodID, 0, 0, 0⟩

/-- The cart item built per selected appetizer (uniform fetched price; no
`isPremium` field on appetizer items, hence falsy). -/
def mkItem (price : ℚ) (baseItemID : Int) (foodID : String → Int) (n : String) : CartItem :=
  { name := "Appetizer: " ++ n
    price := price
    isPremium := false
    transactionEntry := mkEntry baseItemID (foodID n) }

/-- Appetizers.vue `addToCart` as it lands on App.vue's state: guarded by
`canAddToCart`; emits `addToCart(itemsToAdd)` with the whole array of selected
appetizers, but `addToTransactionCart(transactionEntries[0])` with only the
first transaction entry. -/
def confirmAddToCart (s : App.AppState) (selected : List String) (price : ℚ)
    (baseItemID : Int) (foodID : String → Int) : App.AppState :=
  match selected with
  | [] => s
  | n0 :: rest =>
    let itemsToAdd := (n0 :: rest).map (mkItem price baseItemID foodID)
    App.addToTransactionCart (App.addToCart s (.many itemsToAdd))
      (mkEntry baseItemID (foodID n0))

end Appetizer

/-! Helper lemmas shared by the claim theorems. -/

theorem foldl_if_counter (p : String → Bool) (l : List String) (n : Nat) :
    l.foldl (fun c e => if p e then c + 1 else c) n = n + (l.filter p).length := by
  induction l generalizing n with
  | nil => simp
  | cons x xs ih =>
    by_cases h : p x
    · simp [h, ih]
      omega
    · simp [h, ih]

theorem premiumCount_eq_filter_length (prem l : List String) :
    Plate.premiumCount prem l = (l.filter (Plate.isPremium prem)).length := by
  unfold Plate.premiumCount
  have h := foldl_if_counter (Plate.isPremium prem) l 0
  rw [Nat.zero_add] at h
  exact h

theorem mem_updateOrAppend (l : List ALaCarte.SelectedItem) (n : String)
    (item : ALaCarte.SelectedItem) : item ∈ ALaCarte.updateOrAppend l n item := by
  induction l with
  | nil => simp [ALaCarte.updateOrAppend]
  | cons x xs ih =>
    by_cases h : strIncludes x.name n <;> simp [ALaCarte.updateOrAppend, h, ih]

theorem updateOrAppend_length_of_match (l : List ALaCarte.SelectedItem) (n : String)
    (item : ALaCarte.SelectedItem) (h : ∃ e ∈ l, strIncludes e.name n = true) :
    (ALaCarte.updateOrAppend l n item).length = l.length := by
  induction l with
  | nil => simp at h
  | cons x xs ih =>
    by_cases hx : strIncludes x.name n
    · simp [ALaCarte.updateOrAppend, hx]
    · obtain ⟨e, he, hinc⟩ := h
      rcases List.mem_cons.mp he with rfl | hmem
      · exact absurd hinc hx
      · simp [ALaCarte.updateOrAppend, hx, ih ⟨e, hmem, hinc⟩]

theorem updateOrAppend_of_no_match (l : List ALaCarte.SelectedItem) (n : String)
    (item : ALaCarte.SelectedItem) (h : ∀ e ∈ l, strIncludes e.name n = false) :
    ALaCarte.updateOrAppend l n item = l ++ [item] := by
  induction l with
  | nil => simp [ALaCarte.updateOrAppend]
  | cons x xs ih =>
    have hx := h x (by simp)
    simp [ALaCarte.updateOrAppend, hx, ih fun e he => h e (by simp [he])]

theorem strIncludes_displayName (t : ALaCarte.ItemType) (n : String) (sz : ALaCarte.SizeName) :
    strIncludes (ALaCarte.displayName t n sz) n = true := by
  cases t with
  | side =>
    rw [strIncludes, decide_eq_true_eq]
    exact ⟨("Side" ++ ": ").data, (" (" ++ sz.str ++ ")").data,
      by simp [ALaCarte.displayName, String.data_append]⟩
  | entree =>
    rw [strIncludes, decide_eq_true_eq]
    exact ⟨("Entree" ++ ": ").data, (" (" ++ sz.str ++ ")").data,
      by simp [ALaCarte.displayName, String.data_append]⟩

/-! Claim theorems. -/

/-- Claim C1 (code-bug evidence): a batch add of two appetizers, landing on an
empty App.vue cart, appends two cart lines but only one transaction entry
(the component emits only `transactionEntries[0]`), so the two parallel
sequences do not stay index-aligned as the claim requires. -/
theorem appetizer_batch_add_misaligns_cart :
    (Appetizer.confirmAddToCart ⟨[], []⟩ ["Chicken Egg Roll", "Cream Cheese Rangoon"]
        2 10 (fun n => if n = "Chicken Egg Roll" then 31 else 32)).cartItems.length = 2
    ∧ (Appetizer.confirmAddToCart ⟨[], []⟩ ["Chicken Egg Roll", "Cream Cheese Rangoon"]
        2 10 (fun n => if n = "Chicken Egg Roll" then 31 else 32)).transactionCart.length = 1 := by
  exact ⟨rfl, rfl⟩

/-- Claim C2 (code-bug evidence): when the latest-transaction-id read returns
5, `completeOrder` persists a TransactionRecord carrying transactionID 5 — the
value is used verbatim (despite the code's own comment announcing an
increment), not the successor 6 the claim states. -/
theorem transaction_id_not_incremented :
    ((App.completeOrder ⟨[], []⟩ 5 (some "Credit Card") 1 0 0).result.toOption.map
        App.TransactionRecord.transactionID) = some 5
    ∧ ((App.completeOrder ⟨[], []⟩ 5 (some "Credit Card") 1 0 0).result.toOption.map
        App.TransactionRecord.transactionID) ≠ some (5 + 1) := by
  refine ⟨rfl, ?_⟩
  intro h
  rw [show ((App.completeOrder ⟨[], []⟩ 5 (some "Credit Card") 1 0 0).result.toOption.map
      App.TransactionRecord.transactionID) = some 5 from rfl] at h
  simp at h

/-- Claim C3: finalizing with no payment method selected throws the
missing-payment-method error before any service write: no transaction header,
line item, or inventory decrement call is issued, and the cart state is
returned exactly as it was. -/
theorem missing_payment_blocks_finalize (s : App.AppState) (latestID : Int)
    (p : Option String) (employeeID : Int) (total : ℚ) (date : Nat)
    (h : App.paymentNotSelected p = true) :
    App.completeOrder s latestID p employeeID total date =
      { state := s, calls := [], result := .error "Payment method is not selected." } := by
  unfold App.completeOrder
  simp [h]

/-- Claim C3 witness: a concrete one-line cart with no payment selected. -/
theorem missing_payment_blocks_finalize_witness :
    App.paymentNotSelected none = true
    ∧ App.completeOrder ⟨[⟨"Appetizer: Chicken Egg Roll", 2, false, ⟨10, 31, 0, 0, 0⟩⟩],
          [⟨10, 31, 0, 0, 0⟩]⟩ 5 none 12 2 0 =
        { state := ⟨[⟨"Appetizer: Chicken Egg Roll", 2, false, ⟨10, 31, 0, 0, 0⟩⟩],
            [⟨10, 31, 0, 0, 0⟩]⟩
          calls := []
          result := .error "Payment method is not selected." } :=
  ⟨rfl, missing_payment_blocks_finalize _ 5 none 12 2 0 rfl⟩

/-- Claim C4: a Plate selection passing `canAddToCart` has exactly one side
and exactly two entrees, and with two entrees selected a click on a third,
not-yet-selected entree leaves the selection unchanged (silent no-op). -/
theorem plate_arity_and_saturation (s : Plate.PlateState) (e : String) :
    (Plate.canAddToCart s = true →
      s.selectedSide.toList.length = 1 ∧ s.selectedEntrees.length = 2) ∧
    (s.selectedEntrees.length = 2 → s.selectedEntrees.contains e = false →
      Plate.selectEntree s e = s) := by
  constructor
  · intro h
    rw [Plate.canAddToCart, Bool.and_eq_true] at h
    obtain ⟨h1, h2⟩ := h
    rw [beq_iff_eq] at h2
    cases hs : s.selectedSide with
    | none => rw [hs] at h1; simp at h1
    | some side => simp [hs, h2]
  · intro h2 hne
    have hmem : e ∉ s.selectedEntrees := by simpa using hne
    rw [Plate.selectEntree]
    simp [hmem, h2]

/-- Claim C4 witness: a full Plate selection plus an excess entree click. -/
theorem plate_arity_and_saturation_witness :
    ((⟨some "Chow Mein", ["Orange Chicken", "Beijing Beef"]⟩ :
        Plate.PlateState).selectedSide.toList.length = 1
      ∧ (⟨some "Chow Mein", ["Orange Chicken", "Beijing Beef"]⟩ :
        Plate.PlateState).selectedEntrees.length = 2)
    ∧ Plate.selectEntree ⟨some "Chow Mein", ["Orange Chicken", "Beijing Beef"]⟩
        "Honey Walnut Shrimp" = ⟨some "Chow Mein", ["Orange Chicken", "Beijing Beef"]⟩ :=
  ⟨(plate_arity_and_saturation ⟨some "Chow Mein", ["Orange Chicken", "Beijing Beef"]⟩
      "Honey Walnut Shrimp").1 (by decide),
   (plate_arity_and_saturation ⟨some "Chow Mein", ["Orange Chicken", "Beijing Beef"]⟩
      "Honey Walnut Shrimp").2 (by decide) (by decide)⟩

/-- Claim C5: the price of a Plate cart line is the Plate base price plus 1.50
per premium entree among the selected entrees — base, base + 1.50, base + 3.00
for 0, 1, 2 premium entrees respectively. -/
theorem plate_premium_surcharge_price (base : ℚ) (prem : List String) (bid : Int)
    (fid : String → Int) (s : Plate.PlateState) (item : CartItem)
    (h : Plate.addToCart base prem bid fid s = some item) :
    item.price = base + (Plate.premiumCount prem s.selectedEntrees : ℚ) * (3/2)
    ∧ Plate.premiumCount prem s.selectedEntrees
        = (s.selectedEntrees.filter (Plate.isPremium prem)).length
    ∧ (Plate.premiumCount prem s.selectedEntrees = 0 → item.price = base)
    ∧ (Plate.premiumCount prem s.selectedEntrees = 1 → item.price = base + 3/2)
    ∧ (Plate.premiumCount prem s.selectedEntrees = 2 → item.price = base + 3) := by
  have hp : item.price = base + (Plate.premiumCount prem s.selectedEntrees : ℚ) * (3/2) := by
    rw [Plate.addToCart] at h
    split at h
    · split at h
      · rw [Option.some.inj h.symm]
      · exact absurd h (by simp)
    · exact absurd h (by simp)
  refine ⟨hp, premiumCount_eq_filter_length prem s.selectedEntrees, ?_, ?_, ?_⟩
  all_goals intro hc; rw [hp, hc]; norm_num

/-- Claim C5 witness: Plate at base price 8.60 with one premium entree
(Honey Walnut Shrimp) prices at 10.10 = 8.60 + 1.50. -/
theorem plate_premium_surcharge_price_witness :
    Plate.addToCart (43/5) ["Honey Walnut Shrimp"] 2 (fun _ => 3)
        ⟨some "Chow Mein", ["Orange Chicken", "Honey Walnut Shrimp"]⟩
      = some ⟨"Plate (Chow Mein + Orange Chicken, Honey Walnut Shrimp)", 101/10, true, ⟨2, 3, 3, 3, 0⟩⟩
    ∧ (101/10 : ℚ) = 43/5 + (Plate.premiumCount ["Honey Walnut Shrimp"]
        ["Orange Chicken", "Honey Walnut Shrimp"] : ℚ) * (3/2)
    ∧ Plate.premiumCount ["Honey Walnut Shrimp"] ["Orange Chicken", "Honey Walnut Shrimp"] = 1 := by
  have h : Plate.addToCart (43/5) ["Honey Walnut Shrimp"] 2 (fun _ => 3)
      ⟨some "Chow Mein", ["Orange Chicken", "Honey Walnut Shrimp"]⟩
      = some ⟨"Plate (Chow Mein + Orange Chicken, Honey Walnut Shrimp)", 101/10, true, ⟨2, 3, 3, 3, 0⟩⟩ := by
    rw [Plate.addToCart]
    norm_num [Plate.canAddToCart, Plate.premiumCount, Plate.isPremium]
    refine ⟨by decide, ?_⟩
    rw [if_neg (by decide : ¬("Orange Chicken" = "Honey Walnut Shrimp"))]
    norm_num
  exact ⟨h, (plate_premium_surcharge_price (43/5) ["Honey Walnut Shrimp"] 2 (fun _ => 3)
      ⟨some "Chow Mein", ["Orange Chicken", "Honey Walnut Shrimp"]⟩ _ h).1, by decide⟩

/-- Claim C6: for a premium à la carte entree, `selectSize` prices the
resulting line from the premium size table (replacing the standard size price
entirely); at size Large the price is 15.70 whatever the standard fetched
Large price is. -/
theorem alacarte_premium_price_table (s : ALaCarte.AlaState) (size : ALaCarte.SizeOption)
    (prem : List String) (fid : String → Int) (n : String)
    (h1 : s.currentItem = some n) (h2 : prem.contains n = true) :
    ALaCarte.mkSelectedItem .entree n size true (fid n)
        ∈ (ALaCarte.selectSize s size .entree prem fid).selectedEntrees
    ∧ (ALaCarte.mkSelectedItem .entree n size true (fid n)).price
        = ALaCarte.premiumPrices size.name
    ∧ (size.name = .Large →
        (ALaCarte.mkSelectedItem .entree n size true (fid n)).price = 157/10) := by
  refine ⟨?_, rfl, ?_⟩
  · simp only [ALaCarte.selectSize, h1, h2]
    exact mem_updateOrAppend s.selectedEntrees n _
  · intro hL
    rw [ALaCarte.mkSelectedItem]
    show ALaCarte.selectSizePrice .entree true size = 157/10
    rw [ALaCarte.selectSizePrice, hL]
    rfl

/-- Claim C6 witness: premium Honey Walnut Shrimp at size Large is priced
15.70 although the standard Large entree price supplied is 5.25. -/
theorem alacarte_premium_price_table_witness :
    (⟨[], [], true, some "Honey Walnut Shrimp", some .entree⟩ :
        ALaCarte.AlaState).currentItem = some "Honey Walnut Shrimp"
    ∧ (["Honey Walnut Shrimp"].contains "Honey Walnut Shrimp") = true
    ∧ (ALaCarte.mkSelectedItem .entree "Honey Walnut Shrimp" ⟨.Large, 21/4, 22⟩ true 9).price
        = 157/10 :=
  ⟨rfl, by decide,
   (alacarte_premium_price_table ⟨[], [], true, some "Honey Walnut Shrimp", some .entree⟩
      ⟨.Large, 21/4, 22⟩ ["Honey Walnut Shrimp"] (fun _ => 9) "Honey Walnut Shrimp"
      rfl (by decide)).2.2 rfl⟩

/-- Claim C7 counterexample: from a state in which Chow Mein is already the
selected side, clicking (toggling) it twice leaves it selected — not the
unselected state the claim asserts for every starting state. -/
theorem side_double_toggle_not_unselected_cex :
    (Plate.selectSide (Plate.selectSide ⟨some "Chow Mein", []⟩ "Chow Mein")
        "Chow Mein").selectedSide = some "Chow Mein" := by
  rfl

/-- Claim C7 (amended): starting from any state in which the side is not
currently selected, toggling it twice leaves it unselected in Plate; in the à
la carte view `toggleSides` only opens the size modal and never changes the
selected-sides list, so the selection status of every side is preserved. -/
theorem side_toggle_roundtrip_amended (s : Plate.PlateState) (a : ALaCarte.AlaState)
    (side : String) (h : s.selectedSide ≠ some side) :
    (Plate.selectSide (Plate.selectSide s side) side).selectedSide ≠ some side
    ∧ (ALaCarte.toggleSides (ALaCarte.toggleSides a side) side).selectedSides
        = a.selectedSides
    ∧ ALaCarte.isSelected (ALaCarte.toggleSides (ALaCarte.toggleSides a side) side) .side side
        = ALaCarte.isSelected a .side side := by
  refine ⟨?_, rfl, rfl⟩
  simp [Plate.selectSide, h]

/-- Claim C7 witness: a concrete unselected starting state in both views. -/
theorem side_toggle_roundtrip_amended_witness :
    (Plate.selectSide (Plate.selectSide ⟨none, []⟩ "Chow Mein") "Chow Mein").selectedSide
        ≠ some "Chow Mein"
    ∧ (ALaCarte.toggleSides (ALaCarte.toggleSides ⟨[], [], false, none, none⟩ "Chow Mein")
        "Chow Mein").selectedSides
        = (⟨[], [], false, none, none⟩ : ALaCarte.AlaState).selectedSides
    ∧ ALaCarte.isSelected (ALaCarte.toggleSides (ALaCarte.toggleSides
          ⟨[], [], false, none, none⟩ "Chow Mein") "Chow Mein") .side "Chow Mein"
        = ALaCarte.isSelected ⟨[], [], false, none, none⟩ .side "Chow Mein" :=
  side_toggle_roundtrip_amended ⟨none, []⟩ ⟨[], [], false, none, none⟩ "Chow Mein" (by decide)

theorem nonzeroFoodIDs_eq_filter (e : TransactionEntry) :
    App.nonzeroFoodIDs e = [e.food1, e.food2, e.food3, e.food4].filter (fun x => x != 0) := by
  rw [App.nonzeroFoodIDs]
  by_cases h1 : e.food1 = 0 <;> by_cases h2 : e.food2 = 0 <;>
    by_cases h3 : e.food3 = 0 <;> by_cases h4 : e.food4 = 0 <;>
    simp [h1, h2, h3, h4]

theorem count_decFood_map (f : Int) (l : List Int) :
    (l.map App.ServiceCall.decrementByFood).count (App.ServiceCall.decrementByFood f)
      = l.count f :=
  List.count_map_of_injective l App.ServiceCall.decrementByFood
    (fun a b hab => by injection hab) f

/-- Claim C8: per transaction-cart line, finalize issues exactly one
`inventory/subtract` call per nonzero food slot (a food id occurring in k
nonzero slots gets k calls, a zero slot gets none) and exactly one item-type
decrement, carrying the line's base item id. -/
theorem per_line_inventory_decrements (tid : Int) (e : TransactionEntry) (f : Int)
    (hf : f ≠ 0) :
    (App.lineCalls tid e).count (.decrementByFood f)
        = [e.food1, e.food2, e.food3, e.food4].count f
    ∧ (App.lineCalls tid e).count (.decrementByFood 0) = 0
    ∧ (App.lineCalls tid e).countP (fun c => match c with
        | .decrementByItemType _ => true
        | _ => false) = 1
    ∧ (App.lineCalls tid e).count (.decrementByItemType e.itemID) = 1 := by
  refine ⟨?_, ?_, ?_, ?_⟩
  · rw [App.lineCalls, List.count_append, count_decFood_map, nonzeroFoodIDs_eq_filter,
      List.count_filter (by simpa using hf)]
    simp [List.count_cons]
  · rw [App.lineCalls, List.count_append, count_decFood_map, nonzeroFoodIDs_eq_filter]
    have h0 : ([e.food1, e.food2, e.food3, e.food4].filter (fun x => x != 0)).count 0 = 0 := by
      rw [List.count_eq_zero]
      simp
    rw [h0]
    simp [List.count_cons]
  · rw [App.lineCalls, List.countP_append]
    have hmap : ((App.nonzeroFoodIDs e).map App.ServiceCall.decrementByFood).countP
        (fun c => match c with
          | .decrementByItemType _ => true
          | _ => false) = 0 := by
      rw [List.countP_eq_zero]
      intro c hc
      obtain ⟨x, _, rfl⟩ := List.mem_map.mp hc
      simp
    rw [hmap]
    rfl
  · rw [App.lineCalls, List.count_append]
    have hmap : ((App.nonzeroFoodIDs e).map App.ServiceCall.decrementByFood).count
        (App.ServiceCall.decrementByItemType e.itemID) = 0 := by
      rw [List.count_eq_zero]
      intro hc
      obtain ⟨x, _, hx⟩ := List.mem_map.mp hc
      exact absurd hx (by simp)
    rw [hmap]
    simp [List.count_cons]

/-- Claim C8 witness: a line with food slots `[3, 0, 3, 4]`: food 3 is
decremented twice (two nonzero slots), food 0 never, and one item-type
decrement is issued for the base item id 11. -/
theorem per_line_inventory_decrements_witness :
    (App.lineCalls 7 ⟨11, 3, 0, 3, 4⟩).count (.decrementByFood 3) = 2
    ∧ (App.lineCalls 7 ⟨11, 3, 0, 3, 4⟩).count (.decrementByFood 0) = 0
    ∧ (App.lineCalls 7 ⟨11, 3, 0, 3, 4⟩).count (.decrementByItemType 11) = 1 := by
  have h := per_line_inventory_decrements 7 ⟨11, 3, 0, 3, 4⟩ 3 (by decide)
  exact ⟨by rw [h.1]; rfl, h.2.1, h.2.2.2⟩

/-- Claim C9: the ready-time offset `Math.floor(Math.random() * 6) + 5` is a
whole number of minutes between 5 and 10 inclusive for every draw in `[0,1)`,
the ready time is now plus that offset, and every value from 5 to 10 is
attained by some draw. -/
theorem ready_time_offset_bounds (now : ℤ) (r : ℚ) (h0 : 0 ≤ r) (h1 : r < 1) :
    (5 ≤ App.readyMinutesOffset r ∧ App.readyMinutesOffset r ≤ 10)
    ∧ App.calculateReadyTime now r = now + App.readyMinutesOffset r
    ∧ ∀ k : ℤ, 5 ≤ k → k ≤ 10 → ∃ q : ℚ, 0 ≤ q ∧ q < 1 ∧ App.readyMinutesOffset q = k := by
  refine ⟨⟨?_, ?_⟩, rfl, ?_⟩
  · rw [App.readyMinutesOffset]
    have hge : (0:ℤ) ≤ ⌊r * 6⌋ := Int.floor_nonneg.mpr (by linarith)
    omega
  · rw [App.readyMinutesOffset]
    have hlt : ⌊r * 6⌋ < 6 := by
      rw [Int.floor_lt]
      push_cast
      linarith
    omega
  · intro k hk5 hk10
    have hk5q : (5:ℚ) ≤ (k:ℚ) := by exact_mod_cast hk5
    have hk10q : (k:ℚ) ≤ 10 := by exact_mod_cast hk10
    refine ⟨((k:ℚ) - 5) / 6, ?_, ?_, ?_⟩
    · have hnum : (0:ℚ) ≤ (k:ℚ) - 5 := by linarith
      exact div_nonneg hnum (by norm_num)
    · have hden : (0:ℚ) < 6 := by norm_num
      rw [div_lt_one hden]
      linarith
    · have hmul : (((k:ℚ) - 5) / 6) * 6 = ((k - 5 : ℤ) : ℚ) := by
        push_cast
        ring
      rw [App.readyMinutesOffset, hmul, Int.floor_intCast]
      omega

/-- Claim C9 witness: the draw 1/2 is in range and yields an offset within
5 to 10 minutes. -/
theorem ready_time_offset_bounds_witness :
    (0:ℚ) ≤ 1/2 ∧ (1/2:ℚ) < 1
    ∧ (5 ≤ App.readyMinutesOffset (1/2) ∧ App.readyMinutesOffset (1/2) ≤ 10) :=
  ⟨by norm_num, by norm_num,
   (ready_time_offset_bounds 0 (1/2) (by norm_num) (by norm_num)).1⟩

/-- Claim C10 counterexample: with sides named "b" and "a", the selection
sequence b@Medium, a@Medium, b@Large, a@Large ends with two selected-sides
entries for the item "a" (the stored display name "Side: b (Large)" contains
the letter "a" inside "Large", so selecting "a" replaces the "b" entry while
the earlier "a" entry survives at index 1). -/
theorem alacarte_duplicate_same_item_cex :
    (let fid : String → Int := fun n => if n = "a" then 1 else 2
     let szM : ALaCarte.SizeOption := ⟨.Medium, 17/4, 21⟩
     let szL : ALaCarte.SizeOption := ⟨.Large, 21/4, 22⟩
     let step := fun (s : ALaCarte.AlaState) (n : String) (sz : ALaCarte.SizeOption) =>
       ALaCarte.selectSize (ALaCarte.toggleSides s n) sz .side [] fid
     let final := step (step (step (step ⟨[], [], false, none, none⟩ "b" szM) "a" szM)
       "b" szL) "a" szL
     final.selectedSides.map ALaCarte.SelectedItem.name)
      = [ALaCarte.displayName .side "a" .Large, ALaCarte.displayName .side "a" .Medium] := by
  decide

/-- Claim C10 (amended): `selectSize` replaces in place the first selected
entry whose displayed name contains the chosen item's name as a substring —
in particular the list does not grow when an entry for that item already
exists — and appends a new entry exactly when no entry's displayed name
contains the item's name; since the match is substring-based over display
names (which include the size label), the replaced entry can belong to a
different item and the lists can come to hold two entries for the same item
name. -/
theorem select_size_substring_match (s : ALaCarte.AlaState) (size : ALaCarte.SizeOption)
    (prem : List String) (fid : String → Int) (n : String)
    (h : s.currentItem = some n) :
    ((∃ t sz, ∃ e ∈ s.selectedSides, e.name = ALaCarte.displayName t n sz) →
      (ALaCarte.selectSize s size .side prem fid).selectedSides.length
        = s.selectedSides.length)
    ∧ ((∀ e ∈ s.selectedSides, strIncludes e.name n = false) →
      (ALaCarte.selectSize s size .side prem fid).selectedSides
        = s.selectedSides ++ [ALaCarte.mkSelectedItem .side n size (prem.contains n) (fid n)]) := by
  constructor
  · intro hex
    obtain ⟨t, sz, e, he, hname⟩ := hex
    simp only [ALaCarte.selectSize, h]
    exact updateOrAppend_length_of_match s.selectedSides n _
      ⟨e, he, by rw [hname]; exact strIncludes_displayName t n sz⟩
  · intro hall
    simp only [ALaCarte.selectSize, h]
    exact updateOrAppend_of_no_match s.selectedSides n _ hall

/-- Claim C10 witness: re-selecting "Fried Rice" (already selected at Medium)
at size Large keeps the selected-sides list at length one. -/
theorem select_size_substring_match_witness :
    (ALaCarte.selectSize
        ⟨[ALaCarte.mkSelectedItem .side "Fried Rice" ⟨.Medium, 17/4, 21⟩ false 5],
          [], true, some "Fried Rice", some .side⟩
        ⟨.Large, 21/4, 22⟩ .side [] (fun _ => 5)).selectedSides.length = 1 := by
  have h := (select_size_substring_match
      ⟨[ALaCarte.mkSelectedItem .side "Fried Rice" ⟨.Medium, 17/4, 21⟩ false 5],
        [], true, some "Fried Rice", some .side⟩
      ⟨.Large, 21/4, 22⟩ [] (fun _ => 5) "Fried Rice" rfl).1
    ⟨.side, .Medium, ALaCarte.mkSelectedItem .side "Fried Rice" ⟨.Medium, 17/4, 21⟩ false 5,
      by simp, rfl⟩
  simpa using h

end PandaPOS
